import Mathlib

/-!
# mindmatters_backend: journal, chat, analytics and assessment handlers

A shallow embedding of the Express route handlers of `routes/journalRoutes.js`
and `routes/assessmentRoutes.js`, with the Mongoose collections as explicit
lists threaded through each handler.

Conventions of the embedding

* A handler is a pure function of the request, the store before the request
  and an environment record holding every value the handler obtains from the
  outside world (the clock, the id the store assigns, whether the store accepts
  a write, what `fetch` does, what `Math.random()` returns).
* `try { ... } catch` is an `Option` computation: `none` is a thrown
  exception, handled by the `catch` branch of the handler.
* Dates are integers, milliseconds since the epoch. A number is the rational
  value it has; the double arithmetic of the store is a component of the
  environment of the analytics handler.
* Request body fields are taken at the types the schemas give them: a text
  field is `Option String` (`none` is an absent field).
-/

namespace MindMatters

/-! ## JSON values -/

/-- A parsed JSON value, as `JSON.parse` produces it. -/
inductive Json where
  | null : Json
  | bool (b : Bool) : Json
  | num (n : ℚ) : Json
  | str (s : String) : Json
  | arr (xs : List Json) : Json
  | obj (kvs : List (String × Json)) : Json

/-- Own property `k` of a parsed object; with a repeated key the last one wins. -/
def lookupProp (k : String) (kvs : List (String × Json)) : Option Json :=
  kvs.reverse.lookup k

/-- The JavaScript expression `data[0]`, for `data` other than `null`;
`none` is `undefined`. -/
def index0 : Json → Option Json
  | .arr (x :: _) => some x
  | .arr [] => none
  | .obj kvs => lookupProp "0" kvs
  | .str s => if s = "" then none else some (.str (s.take 1))
  | _ => none

/-- The JavaScript expression `v.generated_text` for `v` other than `null`
and `undefined`; `none` is `undefined`. -/
def generatedText : Json → Option Json
  | .obj kvs => lookupProp "generated_text" kvs
  | _ => none

/-! ## Strings -/

/-- White space and line terminators removed by `String.prototype.trim`. -/
def isJsWhiteSpace (c : Char) : Bool :=
  let n := c.toNat
  n = 0x09 || n = 0x0A || n = 0x0B || n = 0x0C || n = 0x0D || n = 0x20 ||
  n = 0xA0 || n = 0x1680 || (0x2000 ≤ n && n ≤ 0x200A) || n = 0x2028 ||
  n = 0x2029 || n = 0x202F || n = 0x205F || n = 0x3000 || n = 0xFEFF

/-- `String.prototype.trim` on a list of characters. -/
def trimChars (s : List Char) : List Char :=
  ((s.dropWhile isJsWhiteSpace).reverse.dropWhile isJsWhiteSpace).reverse

/-- `s.replace(pat, '')` for a string pattern: the first occurrence of `pat`
is removed. -/
def removeFirst (pat : List Char) : List Char → List Char
  | [] => []
  | c :: cs =>
    if pat.isPrefixOf (c :: cs) then (c :: cs).drop pat.length
    else c :: removeFirst pat cs

/-- The expression `s.replace(fullPrompt, '').trim()`. -/
def replaceTrim (fullPrompt s : String) : String :=
  String.mk (trimChars (removeFirst fullPrompt.data s.data))

/-! ## Chat messages -/

/-- A stored document of the `ChatMessage` collection (`chatMessageSchema`). -/
structure ChatMessage where
  _id : Nat
  message : String
  response : String
  timestamp : Int
  deriving DecidableEq, Repr

/-- What `await fetch(...)` does: it throws (the service is unreachable), or it
returns a response with an HTTP status and a body; `body = none` is a body
that `response.json()` cannot parse. -/
inductive FetchOutcome where
  | throws : FetchOutcome
  | response (status : Nat) (body : Option Json) : FetchOutcome

/-- The getter `response.ok`: the status is in the range 200 to 299. -/
def statusOk (status : Nat) : Bool := 200 ≤ status && status ≤ 299

/-- Everything the chat handler obtains from outside the process. -/
structure ChatEnv where
  fetchOutcome : FetchOutcome
  /-- The value returned by `Math.random()`. -/
  random : ℚ
  /-- The value of `Date.now()` when the document is built. -/
  now : Int
  /-- The `_id` the new document gets. -/
  newId : Nat
  /-- Whether the store accepts the write of `chatEntry.save()`. -/
  saveOk : Bool

/-- Body of `POST /chat`; `none` is an absent `message`. -/
structure ChatRequest where
  message : Option String

/-- An HTTP response with a JSON body. -/
structure HttpResponse where
  status : Nat
  body : Json

/-- Outcome of the chat handler: the response sent, the store afterwards and
the prompts sent to the external service, in order. -/
structure ChatResult where
  response : HttpResponse
  store : List ChatMessage
  calls : List String

def systemPrompt : String :=
  "You are a compassionate mental health support assistant. Provide empathetic, helpful responses that encourage positive mental health practices. Keep responses concise and supportive. If someone expresses serious mental health concerns, gently suggest professional help."

def defaultReply : String :=
  "I understand you're sharing something important. How are you feeling about that?"

def fallbackResponses : List String :=
  [ "Thank you for sharing that with me. How does writing about this make you feel?",
    "I hear you. It's important to acknowledge your feelings. What would help you feel better right now?",
    "That sounds significant. Remember that it's okay to feel whatever you're feeling. What support do you need?",
    "I appreciate you opening up. Taking time to reflect on your emotions is really valuable. How can I help?",
    "Your feelings are valid. Sometimes just expressing what we're going through can be therapeutic. What's on your mind?" ]

def staticReply : String :=
  "I'm here to listen. Sometimes technical issues happen, but your feelings and thoughts are always important. How are you doing today?"

/-- The template literal that builds `fullPrompt`. -/
def fullPromptOf (message : String) : String :=
  systemPrompt ++ "\n\nUser: " ++ message ++ "\nAssistant:"

/-- The right-hand side of the assignment to `botResponse` on the `response.ok`
branch: `data[0]?.generated_text?.replace(fullPrompt, '').trim() || default`.
`none` is a thrown `TypeError`: `data` is `null`, or `generated_text` is
neither absent, `null` nor a string and so has no `replace` method. -/
def extractReply (fullPrompt : String) (data : Json) : Option String :=
  match data with
  | .null => none
  | d =>
    match index0 d with
    | none => some defaultReply
    | some .null => some defaultReply
    | some v =>
      match generatedText v with
      | none => some defaultReply
      | some .null => some defaultReply
      | some (.str s) =>
        let r := replaceTrim fullPrompt s
        some (if r = "" then defaultReply else r)
      | some _ => none

/-- The expression `fallbackResponses[Math.floor(Math.random() * fallbackResponses.length)]`;
`none` is `undefined`. -/
def pickFallback (random : ℚ) : Option String :=
  let i : ℤ := ⌊random * (fallbackResponses.length : ℚ)⌋
  if i < 0 then none else fallbackResponses.get? i.toNat

/-- Validation of `chatMessageSchema` at `save()`: `message` and `response` are
required strings, so an `undefined` or empty value is a validation error. -/
def validChatMessage (message : String) (response : Option String) : Option String :=
  match response with
  | none => none
  | some r => if message = "" ∨ r = "" then none else some r

/-- The body of the `try` block of `POST /chat` after the guard on `message`:
`none` is an exception, otherwise the reply and the new store. -/
def chatTry (message : String) (env : ChatEnv) (store : List ChatMessage) :
    Option (String × List ChatMessage) :=
  match env.fetchOutcome with
  | .throws => none
  | .response status body =>
    let botResponse : Option (Option String) :=
      if statusOk status then
        match body with
        | none => none
        | some data => (extractReply (fullPromptOf message) data).map some
      else some (pickFallback env.random)
    match botResponse with
    | none => none
    | some bot =>
      match validChatMessage message bot with
      | none => none
      | some r =>
        if env.saveOk then
          some (r, store ++ [{ _id := env.newId, message := message, response := r,
                               timestamp := env.now }])
        else none

/-- The handler `router.post("/chat")`. -/
def chat (req : ChatRequest) (env : ChatEnv) (store : List ChatMessage) : ChatResult :=
  match req.message with
  | none =>
    { response := ⟨400, .obj [("message", .str "Message is required")]⟩,
      store := store, calls := [] }
  | some message =>
    if message = "" then
      { response := ⟨400, .obj [("message", .str "Message is required")]⟩,
        store := store, calls := [] }
    else
      match chatTry message env store with
      | some (r, store') =>
        { response := ⟨200, .obj [("response", .str r)]⟩,
          store := store', calls := [fullPromptOf message] }
      | none =>
        { response := ⟨500, .obj [("response", .str staticReply)]⟩,
          store := store, calls := [fullPromptOf message] }

/-! ## Journal entries -/

/-- The `enum` of the `mood` path of `journalEntrySchema`. -/
def moodEnum : List String :=
  ["very-happy", "happy", "neutral", "sad", "very-sad", "anxious", "excited", "calm"]

/-- A stored document of the `JournalEntry` collection (`journalEntrySchema`
with `timestamps: true`). -/
structure JournalEntry where
  _id : Nat
  date : Int
  mood : String
  title : String
  content : String
  tags : List String
  moodScore : Option ℚ
  createdAt : Int
  updatedAt : Int
  deriving DecidableEq

/-- A request body for the journal routes; `none` is an absent field. -/
structure JournalBody where
  date : Option Int := none
  mood : Option String := none
  title : Option String := none
  content : Option String := none
  tags : Option (List String) := none
  moodScore : Option ℚ := none

/-- Everything a journal handler obtains from outside the process. -/
structure JournalEnv where
  /-- The value of `Date.now()`. -/
  now : Int
  /-- The `_id` a new document gets. -/
  newId : Nat
  /-- Whether the store carries out the operation (it may fail instead). -/
  dbOk : Bool

/-- Body of a response of the journal routes: a document, or an object with a
`message` (the text of a library error message is not modelled). -/
inductive JournalReply where
  | entry (e : JournalEntry) : JournalReply
  | message (text : Option String) : JournalReply

/-- Outcome of a journal handler. -/
structure JournalResult where
  status : Nat
  reply : JournalReply
  store : List JournalEntry

/-- The `required` validator of a String path: the value is present and not
the empty string. -/
def requiredString : Option String → Option String
  | some s => if s = "" then none else some s
  | none => none

/-- The `min: 1, max: 10` validators of `moodScore`; an absent value passes. -/
def moodScoreValid : Option ℚ → Bool
  | none => true
  | some v => decide (1 ≤ v) && decide (v ≤ 10)

/-- Validation run by `newEntry.save()` on the document built by
`new JournalEntry({ mood, title, content, tags: tags || [], moodScore })`:
`mood`, `title` and `content` are required, `mood` is in the enum and
`moodScore` is within its bounds. The defaults `date` and the two timestamps
are the current time. `none` is a validation error. -/
def buildJournalEntry (body : JournalBody) (env : JournalEnv) : Option JournalEntry :=
  match requiredString body.mood, requiredString body.title, requiredString body.content with
  | some mood, some title, some content =>
    if mood ∈ moodEnum ∧ moodScoreValid body.moodScore = true then
      some { _id := env.newId, date := env.now, mood := mood, title := title,
             content := content, tags := body.tags.getD [],
             moodScore := body.moodScore, createdAt := env.now, updatedAt := env.now }
    else none
  | _, _, _ => none

/-- The handler `router.post("/")` of the journal routes. -/
def createJournal (body : JournalBody) (env : JournalEnv) (store : List JournalEntry) :
    JournalResult :=
  match buildJournalEntry body env with
  | some e =>
    if env.dbOk then { status := 201, reply := .entry e, store := store ++ [e] }
    else { status := 400, reply := .message none, store := store }
  | none => { status := 400, reply := .message none, store := store }

/-- The `$set` that `findByIdAndUpdate(id, req.body, ...)` applies to the
matched document: every field present in the body replaces the stored one and
`updatedAt` becomes the current time. The call passes no `runValidators`
option, so the schema validators do not run. -/
def applyUpdate (body : JournalBody) (now : Int) (e : JournalEntry) : JournalEntry :=
  { e with
    date := body.date.getD e.date
    mood := body.mood.getD e.mood
    title := body.title.getD e.title
    content := body.content.getD e.content
    tags := body.tags.getD e.tags
    moodScore := match body.moodScore with
      | some v => some v
      | none => e.moodScore
    updatedAt := now }

/-- Replace the first document with the given `_id`. -/
def replaceById (id : Nat) (f : JournalEntry → JournalEntry) :
    List JournalEntry → List JournalEntry
  | [] => []
  | e :: es => if e._id = id then f e :: es else e :: replaceById id f es

/-- Remove the first document with the given `_id`. -/
def removeById (id : Nat) : List JournalEntry → List JournalEntry
  | [] => []
  | e :: es => if e._id = id then es else e :: removeById id es

/-- The handler `router.put("/:id")`; `id = none` is a path parameter that is
not a valid ObjectId, which makes the query throw a cast error. -/
def updateJournal (id : Option Nat) (body : JournalBody) (env : JournalEnv)
    (store : List JournalEntry) : JournalResult :=
  match id with
  | none => { status := 400, reply := .message none, store := store }
  | some i =>
    if env.dbOk then
      match store.find? (fun e => e._id = i) with
      | some e =>
        { status := 200, reply := .entry (applyUpdate body env.now e),
          store := replaceById i (applyUpdate body env.now) store }
      | none => { status := 404, reply := .message (some "Entry not found"), store := store }
    else { status := 400, reply := .message none, store := store }

/-- The handler `router.delete("/:id")`. -/
def deleteJournal (id : Option Nat) (env : JournalEnv) (store : List JournalEntry) :
    JournalResult :=
  match id with
  | none => { status := 500, reply := .message none, store := store }
  | some i =>
    if env.dbOk then
      match store.find? (fun e => e._id = i) with
      | some _ =>
        { status := 200, reply := .message (some "Entry deleted successfully"),
          store := removeById i store }
      | none => { status := 404, reply := .message (some "Entry not found"), store := store }
    else { status := 500, reply := .message none, store := store }

/-- A request that writes to the journal collection. -/
inductive JournalRequest where
  | create (body : JournalBody) : JournalRequest
  | update (id : Option Nat) (body : JournalBody) : JournalRequest
  | delete (id : Option Nat) : JournalRequest

/-- Dispatch of a writing request to its handler. -/
def handleJournal (req : JournalRequest) (env : JournalEnv) (store : List JournalEntry) :
    JournalResult :=
  match req with
  | .create body => createJournal body env store
  | .update id body => updateJournal id body env store
  | .delete id => deleteJournal id env store

/-- The store states reachable from the empty collection by create, update and
delete requests. -/
inductive JournalReachable : List JournalEntry → Prop where
  | empty : JournalReachable []
  | step (req : JournalRequest) (env : JournalEnv) (store : List JournalEntry) :
      JournalReachable store → JournalReachable (handleJournal req env store).store

/-! ## Mood-trend analytics -/

/-- Milliseconds in a day. -/
def dayMs : Int := 86400000

/-- The time zone of the process: the offset of local time from UTC, in
milliseconds, at a UTC instant (`LocalTZA(t, true)` of ECMAScript) and at a
local wall-clock time (`LocalTZA(t, false)`). -/
structure TimeZone where
  offsetAtUtc : Int → Int
  offsetAtLocal : Int → Int

/-- The zone UTC. -/
def utcZone : TimeZone := ⟨fun _ => 0, fun _ => 0⟩

/-- The zone America/New_York around the start of daylight saving time on
10 March 2024: five hours behind UTC before 07:00 UTC of that day (03:00 of the
local clock), four hours behind from then on. -/
def newYork2024 : TimeZone :=
  ⟨fun t => if t < 1710054000000 then -18000000 else -14400000,
   fun t => if t < 1710039600000 then -18000000 else -14400000⟩

/-- Everything the analytics handler obtains from outside the process. -/
structure TrendsEnv where
  /-- The time value of `new Date()`. -/
  now : Int
  /-- The time zone of the process. -/
  zone : TimeZone
  /-- The JSON value of the double that the accumulator `$avg` of the store
  yields on a non-empty list of numbers; `none` is a double that is not finite,
  which `res.json` writes as `null`. -/
  avg : List ℚ → Option ℚ

/-- The date computed by `thirtyDaysAgo.setDate(thirtyDaysAgo.getDate() - 30)`
from `new Date()`. `getDate` and `setDate` work on local time: the time value
becomes local time, the day of the month minus 30 is handed to `MakeDay`, which
moves the day number back by 30 and keeps the time within the day, and the
result goes back to UTC with the offset in force at that local time. -/
def thirtyDaysAgo (zone : TimeZone) (now : Int) : Int :=
  (now + zone.offsetAtUtc now - 30 * dayMs) -
    zone.offsetAtLocal (now + zone.offsetAtUtc now - 30 * dayMs)

/-- The stage `$match: { createdAt: { $gte: thirtyDaysAgo } }`. -/
def inWindow (env : TrendsEnv) (e : JournalEntry) : Bool :=
  decide (thirtyDaysAgo env.zone env.now ≤ e.createdAt)

/-- The UTC calendar day of a date, as a day number since the epoch. The
expression `$dateToString` with format `%Y-%m-%d` renders this day as text, one
text per day, ordered as the day numbers are for years 0000 to 9999. -/
def utcDay (t : Int) : Int := t / dayMs

/-- The `_id` of the `$group` stage: the calendar day of `createdAt` and the
mood. -/
def groupKey (e : JournalEntry) : Int × String := (utcDay e.createdAt, e.mood)

/-- The accumulator `$avg` on the values of a group: `null` (here `none`) when
there is no number, otherwise what the store computes from them. -/
def average (avg : List ℚ → Option ℚ) : List ℚ → Option ℚ
  | [] => none
  | x :: xs => avg (x :: xs)

/-- A row of the mood-trends output. -/
structure TrendRow where
  date : Int
  mood : String
  count : Nat
  avgScore : Option ℚ
  deriving DecidableEq

/-- The row of the `$group` stage for one key: `count` adds 1 per document of
the group, `avgScore` averages the `moodScore` values the documents have. -/
def groupRow (avg : List ℚ → Option ℚ) (docs : List JournalEntry) (k : Int × String) :
    TrendRow :=
  { date := k.1, mood := k.2,
    count := (docs.filter (fun e => groupKey e = k)).length,
    avgScore := average avg
      ((docs.filter (fun e => groupKey e = k)).filterMap (fun e => e.moodScore)) }

/-- Order of the stage `$sort: { "_id.date": 1 }`. -/
def dateLe (a b : TrendRow) : Prop := a.date ≤ b.date

instance : DecidableRel dateLe := fun a b => inferInstanceAs (Decidable (a.date ≤ b.date))

instance : IsTotal TrendRow dateLe := ⟨fun a b => le_total a.date b.date⟩

instance : IsTrans TrendRow dateLe := ⟨fun _ _ _ h₁ h₂ => le_trans h₁ h₂⟩

/-- The aggregation pipeline of `router.get("/analytics/mood-trends")`:
`$match` on the window, `$group` by (day, mood), `$sort` by date. The order of
rows of equal date is left open by the store; the model keeps one of them. -/
def moodTrends (env : TrendsEnv) (store : List JournalEntry) : List TrendRow :=
  (((store.filter (inWindow env)).map groupKey).dedup.map
    (groupRow env.avg (store.filter (inWindow env)))).insertionSort dateLe

/-- The key of an output row. -/
def rowKey (r : TrendRow) : Int × String := (r.date, r.mood)

/-! ### Double arithmetic -/

/-- Rounding of a rational to the nearest integer, a tie going to the even
one. -/
def roundHalfEven (x : ℚ) : ℤ :=
  if x - ⌊x⌋ < 1 / 2 then ⌊x⌋
  else if 1 / 2 < x - ⌊x⌋ then ⌊x⌋ + 1
  else if ⌊x⌋ % 2 = 0 then ⌊x⌋ else ⌊x⌋ + 1

/-- The unit in the last place of the binary64 format at `x`: 52 binary places
below the leading bit, and no finer than the subnormal spacing. -/
def doubleUlp (x : ℚ) : ℚ := 2 ^ (max (Int.log 2 |x|) (-1022) - 52)

/-- The IEEE 754 binary64 value nearest to `x`, ties to even; `none` when the
rounded value is out of the finite range. -/
def nearestDouble (x : ℚ) : Option ℚ :=
  if |(roundHalfEven (x / doubleUlp x) : ℚ) * doubleUlp x| < 2 ^ 1024 then
    some (roundHalfEven (x / doubleUlp x) * doubleUlp x)
  else none

/-- The mean in double arithmetic: the total as a double, divided by the
count in double arithmetic. It is the value of `$avg` on numbers whose total
the store accumulates without error, such as small integers. -/
def doubleMean (xs : List ℚ) : Option ℚ :=
  (nearestDouble xs.sum).bind (fun t => nearestDouble (t / xs.length))

/-! ## Chat history -/

/-- Order of `.sort({ timestamp: -1 })`: newest first. -/
def newerFirst (a b : ChatMessage) : Prop := b.timestamp ≤ a.timestamp

instance : DecidableRel newerFirst :=
  fun a b => inferInstanceAs (Decidable (b.timestamp ≤ a.timestamp))

instance : IsTotal ChatMessage newerFirst := ⟨fun a b => le_total b.timestamp a.timestamp⟩

instance : IsTrans ChatMessage newerFirst := ⟨fun _ _ _ h₁ h₂ => le_trans h₂ h₁⟩

/-- The query of `router.get("/chat/history")`:
`ChatMessage.find().sort({ timestamp: -1 }).limit(50)`. -/
def chatHistory (store : List ChatMessage) : List ChatMessage :=
  (store.insertionSort newerFirst).take 50

/-! ## Assessment intake -/

/-- A stored document as a list of fields. -/
abbrev Document := List (String × Json)

/-- The paths declared by `moodEntrySchema` in `models/MoodEntry.js`. -/
def moodEntryPaths : List String := ["name", "email", "text", "rewritten", "createdAt"]

/-- The constructor `new MoodEntry(fields)`: the schema is strict (the Mongoose
default), so a field that is not a declared path is left out of the document;
the document gets its `_id` and the default `createdAt`. -/
def newMoodEntry (fields : Document) (now : Int) (newId : Nat) : Document :=
  [("_id", .num newId)] ++ fields.filter (fun kv => kv.1 ∈ moodEntryPaths) ++
    [("createdAt", .num now)]

/-- Body of `POST /` of the assessment routes; `none` is an absent field. -/
structure AssessmentBody where
  name : Option String
  email : Option String
  score : Option ℚ

/-- The object literal `{ name, email, score }` built from the destructured
body; a field that is `undefined` sets nothing. -/
def assessmentFields (body : AssessmentBody) : Document :=
  (body.name.map (fun v => ("name", Json.str v))).toList ++
  (body.email.map (fun v => ("email", Json.str v))).toList ++
  (body.score.map (fun v => ("score", Json.num v))).toList

/-- Outcome of the assessment create handler. -/
structure AssessmentResult where
  response : HttpResponse
  store : List Document

/-- The handler `router.post("/")` of the assessment routes. -/
def createAssessment (body : AssessmentBody) (env : JournalEnv) (store : List Document) :
    AssessmentResult :=
  let newEntry := newMoodEntry (assessmentFields body) env.now env.newId
  if env.dbOk then
    { response := ⟨201, .obj [("message", .str "Entry saved")]⟩, store := store ++ [newEntry] }
  else
    { response := ⟨500, .obj [("error", .str "Failed to save entry")]⟩, store := store }

/-- The value of a field of a document, when it is a string. -/
def fieldString (k : String) (d : Document) : Option String :=
  match d.lookup k with
  | some (.str s) => some s
  | _ => none

/-- The value of a field of a document, when it is a number. -/
def fieldNumber (k : String) (d : Document) : Option ℚ :=
  match d.lookup k with
  | some (.num n) => some n
  | _ => none

/-- Whether a document has a field. -/
def hasField (k : String) (d : Document) : Bool := (d.lookup k).isSome

/-! ## Chat: supporting lemmas -/

theorem fallbackResponses_length : fallbackResponses.length = 5 := rfl

theorem defaultReply_ne_empty : defaultReply ≠ "" := by decide

theorem fallback_ne_empty : ∀ s ∈ fallbackResponses, s ≠ "" := by decide

theorem staticReply_not_fallback : staticReply ∉ fallbackResponses := by decide

/-- Every draw in `[0, 1)` selects an element of the pool. -/
theorem pickFallback_mem (r : ℚ) (h0 : 0 ≤ r) (h1 : r < 1) :
    ∃ s, pickFallback r = some s ∧ s ∈ fallbackResponses := by
  unfold pickFallback
  rw [fallbackResponses_length]
  have hlo : (0 : ℤ) ≤ ⌊r * ((5 : ℕ) : ℚ)⌋ := by
    apply Int.floor_nonneg.mpr
    push_cast
    linarith
  have hhi : ⌊r * ((5 : ℕ) : ℚ)⌋ < 5 := by
    apply Int.floor_lt.mpr
    push_cast
    linarith
  obtain ⟨n, hn⟩ := Int.eq_ofNat_of_zero_le hlo
  have hn5 : n < 5 := by omega
  simp only [hn]
  have hneg : ¬ ((n : ℤ) < 0) := by omega
  simp only [hneg, if_false, Int.toNat_ofNat]
  interval_cases n <;> simp [fallbackResponses]

/-- A reply extracted from a parsed body is never empty. -/
theorem extractReply_ne_empty (p : String) (data : Json) (r : String)
    (h : extractReply p data = some r) : r ≠ "" := by
  unfold extractReply at h
  split at h
  · exact absurd h (by simp)
  · split at h
    · simp only [Option.some.injEq] at h; subst h; exact defaultReply_ne_empty
    · simp only [Option.some.injEq] at h; subst h; exact defaultReply_ne_empty
    · split at h
      · simp only [Option.some.injEq] at h; subst h; exact defaultReply_ne_empty
      · simp only [Option.some.injEq] at h; subst h; exact defaultReply_ne_empty
      · simp only [Option.some.injEq] at h
        subst h
        split
        · exact defaultReply_ne_empty
        · assumption
      · exact absurd h (by simp)

/-! ## Chat: the claims -/

/-- The `catch` branch of the chat handler. -/
theorem chat_of_chatTry_none (m : String) (env : ChatEnv) (store : List ChatMessage)
    (hm : m ≠ "") (h : chatTry m env store = none) :
    chat ⟨some m⟩ env store =
      { response := ⟨500, .obj [("response", .str staticReply)]⟩,
        store := store, calls := [fullPromptOf m] } := by
  simp [chat, hm, h]

/-- The normal completion of the chat handler. -/
theorem chat_of_chatTry_some (m : String) (env : ChatEnv) (store : List ChatMessage)
    (hm : m ≠ "") (r : String) (store' : List ChatMessage)
    (h : chatTry m env store = some (r, store')) :
    chat ⟨some m⟩ env store =
      { response := ⟨200, .obj [("response", .str r)]⟩,
        store := store', calls := [fullPromptOf m] } := by
  simp [chat, hm, h]

/-- C4: a chat request whose message is missing or empty is answered with
status 400, sends nothing to the external service and leaves the ChatMessage
store as it was. -/
theorem chat_missing_message (req : ChatRequest) (env : ChatEnv)
    (store : List ChatMessage)
    (h : req.message = none ∨ req.message = some "") :
    (chat req env store).response.status = 400 ∧
    (chat req env store).calls = [] ∧
    (chat req env store).store = store := by
  rcases h with h | h <;> simp [chat, h]

theorem chat_missing_message_witness :
    ((⟨some ""⟩ : ChatRequest).message = none ∨
      (⟨some ""⟩ : ChatRequest).message = some "") ∧
    (chat ⟨some ""⟩ ⟨.throws, 0, 0, 0, true⟩ []).response.status = 400 ∧
    (chat ⟨some ""⟩ ⟨.throws, 0, 0, 0, true⟩ []).calls = [] ∧
    (chat ⟨some ""⟩ ⟨.throws, 0, 0, 0, true⟩ []).store = [] :=
  ⟨Or.inr rfl, chat_missing_message ⟨some ""⟩ ⟨.throws, 0, 0, 0, true⟩ [] (Or.inr rfl)⟩

/-- C3, as stated, fails: when the body of a successful external response
cannot be read, the chat endpoint answers a non-empty message with status
500, not 200. -/
theorem chat_unreadable_body_status :
    (chat ⟨some "hello"⟩ ⟨.response 200 none, 0, 0, 0, true⟩ []).response.status = 500 ∧
    (chat ⟨some "hello"⟩ ⟨.response 200 none, 0, 0, 0, true⟩ []).response.status ≠ 200 := by
  constructor <;> simp [chat, chatTry, statusOk]

/-- C3, amended: for a non-empty message, when the external request throws,
or the body of a successful response cannot be read, or the store refuses the
write, the chat endpoint answers with status 500 and the static reassuring
reply, and the ChatMessage store is unchanged. -/
theorem chat_internal_failure (m : String) (env : ChatEnv) (store : List ChatMessage)
    (hm : m ≠ "")
    (h : env.fetchOutcome = .throws ∨
         (∃ status, statusOk status = true ∧ env.fetchOutcome = .response status none) ∨
         env.saveOk = false) :
    (chat ⟨some m⟩ env store).response.status = 500 ∧
    (chat ⟨some m⟩ env store).response.body = .obj [("response", .str staticReply)] ∧
    (chat ⟨some m⟩ env store).store = store := by
  have hnone : chatTry m env store = none := by
    rcases h with h | ⟨status, hok, h⟩ | h
    · simp [chatTry, h]
    · simp [chatTry, h, hok]
    · unfold chatTry
      split
      · rfl
      · simp only [h]
        split
        · rfl
        · split <;> simp
  rw [chat_of_chatTry_none m env store hm hnone]
  exact ⟨rfl, rfl, rfl⟩

theorem chat_internal_failure_witness :
    (chat ⟨some "hello"⟩ ⟨.response 401 none, 0, 0, 0, false⟩ []).response.status = 500 ∧
    (chat ⟨some "hello"⟩ ⟨.response 401 none, 0, 0, 0, false⟩ []).response.body =
      .obj [("response", .str staticReply)] ∧
    (chat ⟨some "hello"⟩ ⟨.response 401 none, 0, 0, 0, false⟩ []).store = [] :=
  chat_internal_failure "hello" ⟨.response 401 none, 0, 0, 0, false⟩ [] (by decide)
    (Or.inr (Or.inr rfl))

/-- C2, as stated, fails: when the external request itself throws, the chat
endpoint answers with status 500 and a reply that is none of the five
fallback strings. -/
theorem chat_fetch_throws_not_fallback :
    (chat ⟨some "hello"⟩ ⟨.throws, 0, 0, 0, true⟩ []).response.status = 500 ∧
    (chat ⟨some "hello"⟩ ⟨.throws, 0, 0, 0, true⟩ []).response.body =
      .obj [("response", .str staticReply)] ∧
    staticReply ∉ fallbackResponses := by
  refine ⟨?_, ?_, staticReply_not_fallback⟩ <;> simp [chat, chatTry]

/-- C2, amended: for a non-empty message and every draw in `[0, 1)`, when the
external call returns a non-success status and the store accepts the write,
the endpoint answers with status 200 and a reply that is one of the five
fallback strings, stored with the message; when the external request itself
throws, the endpoint answers with status 500 and the static reassuring reply. -/
theorem chat_fallback (m : String) (env : ChatEnv) (store : List ChatMessage)
    (hm : m ≠ "") (h0 : 0 ≤ env.random) (h1 : env.random < 1) :
    (∀ status body, statusOk status = false →
      env.fetchOutcome = .response status body → env.saveOk = true →
      ∃ r ∈ fallbackResponses,
        (chat ⟨some m⟩ env store).response.status = 200 ∧
        (chat ⟨some m⟩ env store).response.body = .obj [("response", .str r)] ∧
        (chat ⟨some m⟩ env store).store = store ++ [⟨env.newId, m, r, env.now⟩]) ∧
    (env.fetchOutcome = .throws →
      (chat ⟨some m⟩ env store).response.status = 500 ∧
      (chat ⟨some m⟩ env store).response.body = .obj [("response", .str staticReply)]) := by
  constructor
  · intro status body hok hf hs
    obtain ⟨r, hr, hmem⟩ := pickFallback_mem env.random h0 h1
    have hne : r ≠ "" := fallback_ne_empty r hmem
    have htry : chatTry m env store = some (r, store ++ [⟨env.newId, m, r, env.now⟩]) := by
      simp [chatTry, hf, hok, hr, validChatMessage, hm, hne, hs]
    rw [chat_of_chatTry_some m env store hm _ _ htry]
    exact ⟨r, hmem, rfl, rfl, rfl⟩
  · intro hf
    have hnone : chatTry m env store = none := by simp [chatTry, hf]
    rw [chat_of_chatTry_none m env store hm hnone]
    exact ⟨rfl, rfl⟩

theorem chat_fallback_witness :
    (∃ r ∈ fallbackResponses,
      (chat ⟨some "hello"⟩ ⟨.response 401 none, 1/2, 7, 3, true⟩ []).response.status = 200 ∧
      (chat ⟨some "hello"⟩ ⟨.response 401 none, 1/2, 7, 3, true⟩ []).response.body =
        .obj [("response", .str r)] ∧
      (chat ⟨some "hello"⟩ ⟨.response 401 none, 1/2, 7, 3, true⟩ []).store =
        [] ++ [⟨3, "hello", r, 7⟩]) ∧
    (chat ⟨some "hello"⟩ ⟨.throws, 1/2, 7, 3, true⟩ []).response.status = 500 ∧
    (chat ⟨some "hello"⟩ ⟨.throws, 1/2, 7, 3, true⟩ []).response.body =
      .obj [("response", .str staticReply)] :=
  ⟨(chat_fallback "hello" ⟨.response 401 none, 1/2, 7, 3, true⟩ [] (by decide)
      (by norm_num) (by norm_num)).1 401 none rfl rfl rfl,
   (chat_fallback "hello" ⟨.throws, 1/2, 7, 3, true⟩ [] (by decide)
      (by norm_num) (by norm_num)).2 rfl⟩

/-- C1, as stated, fails: a successful external response whose JSON body is
`null` makes the chat endpoint answer a non-empty message with status 500 and
store nothing. -/
theorem chat_null_body_status :
    (chat ⟨some "hello"⟩ ⟨.response 200 (some .null), 0, 0, 0, true⟩ []).response.status = 500 ∧
    (chat ⟨some "hello"⟩ ⟨.response 200 (some .null), 0, 0, 0, true⟩ []).store = [] := by
  constructor <;> simp [chat, chatTry, statusOk, extractReply]

/-- C1, amended: for a non-empty message and a draw in `[0, 1)`, when the
external service returns either a non-success status, or a success status with
a JSON body from which the reply can be read without an exception, and the
store accepts the write, the chat endpoint answers with status 200 and a
non-empty response string, and a ChatMessage holding the request message and
that reply has been appended to the store. -/
theorem chat_success (m : String) (env : ChatEnv) (store : List ChatMessage)
    (status : Nat) (body : Option Json)
    (hm : m ≠ "") (h0 : 0 ≤ env.random) (h1 : env.random < 1)
    (hf : env.fetchOutcome = .response status body)
    (hbody : statusOk status = false ∨
      ∃ data, body = some data ∧ (extractReply (fullPromptOf m) data).isSome = true)
    (hs : env.saveOk = true) :
    ∃ r : String, r ≠ "" ∧
      (chat ⟨some m⟩ env store).response.status = 200 ∧
      (chat ⟨some m⟩ env store).response.body = .obj [("response", .str r)] ∧
      (chat ⟨some m⟩ env store).store = store ++ [⟨env.newId, m, r, env.now⟩] := by
  by_cases hok : statusOk status = true
  · rcases hbody with hno | ⟨data, hd, hsome⟩
    · rw [hok] at hno; exact absurd hno (by simp)
    · obtain ⟨r, hr⟩ := Option.isSome_iff_exists.mp hsome
      have hne : r ≠ "" := extractReply_ne_empty _ _ _ hr
      have htry : chatTry m env store = some (r, store ++ [⟨env.newId, m, r, env.now⟩]) := by
        simp [chatTry, hf, hok, hd, hr, validChatMessage, hm, hne, hs]
      rw [chat_of_chatTry_some m env store hm _ _ htry]
      exact ⟨r, hne, rfl, rfl, rfl⟩
  · have hok' : statusOk status = false := by simpa using hok
    obtain ⟨r, hr, hmem⟩ := pickFallback_mem env.random h0 h1
    have hne : r ≠ "" := fallback_ne_empty r hmem
    have htry : chatTry m env store = some (r, store ++ [⟨env.newId, m, r, env.now⟩]) := by
      simp [chatTry, hf, hok', hr, validChatMessage, hm, hne, hs]
    rw [chat_of_chatTry_some m env store hm _ _ htry]
    exact ⟨r, hne, rfl, rfl, rfl⟩

theorem chat_success_witness :
    ∃ r : String, r ≠ "" ∧
      (chat ⟨some "hello"⟩
        ⟨.response 200 (some (.arr [.obj [("generated_text", .str " hi ")]])), 0, 7, 3, true⟩
        []).response.status = 200 ∧
      (chat ⟨some "hello"⟩
        ⟨.response 200 (some (.arr [.obj [("generated_text", .str " hi ")]])), 0, 7, 3, true⟩
        []).response.body = .obj [("response", .str r)] ∧
      (chat ⟨some "hello"⟩
        ⟨.response 200 (some (.arr [.obj [("generated_text", .str " hi ")]])), 0, 7, 3, true⟩
        []).store = [] ++ [⟨3, "hello", r, 7⟩] :=
  chat_success "hello"
    ⟨.response 200 (some (.arr [.obj [("generated_text", .str " hi ")]])), 0, 7, 3, true⟩
    [] 200 (some (.arr [.obj [("generated_text", .str " hi ")]]))
    (by decide) (by norm_num) (by norm_num) rfl
    (Or.inr ⟨_, rfl, by simp [extractReply, index0, generatedText, lookupProp]⟩) rfl

/-! ## Journal: the claims -/

/-- C5, as stated, fails: a create request whose mood is one of the eight
values but which has no title is rejected with status 400 and nothing is
stored. -/
theorem createJournal_valid_mood_rejected :
    "happy" ∈ moodEnum ∧
    (createJournal { mood := some "happy", content := some "text" } ⟨5, 1, true⟩ []).status = 400 ∧
    (createJournal { mood := some "happy", content := some "text" } ⟨5, 1, true⟩ []).store = [] := by
  refine ⟨by decide, ?_, ?_⟩ <;> simp [createJournal, buildJournalEntry, requiredString]

/-- C5, amended: a create request whose mood is absent or outside the eight
values is rejected with status 400 and the store is unchanged; a create
request whose mood is one of the eight values, whose title and content are
present and non-empty and whose moodScore is absent or between 1 and 10 is,
when the store accepts the write, answered with status 201 and the entry is
appended with the current time as its date and creation time. -/
theorem createJournal_mood (body : JournalBody) (env : JournalEnv)
    (store : List JournalEntry) :
    ((body.mood = none ∨ ∃ m, body.mood = some m ∧ m ∉ moodEnum) →
      (createJournal body env store).status = 400 ∧
      (createJournal body env store).store = store) ∧
    (∀ m t c, body.mood = some m → m ∈ moodEnum →
      body.title = some t → t ≠ "" → body.content = some c → c ≠ "" →
      moodScoreValid body.moodScore = true → env.dbOk = true →
      (createJournal body env store).status = 201 ∧
      (createJournal body env store).store = store ++
        [{ _id := env.newId, date := env.now, mood := m, title := t, content := c,
           tags := body.tags.getD [], moodScore := body.moodScore,
           createdAt := env.now, updatedAt := env.now }]) := by
  constructor
  · intro h
    have hnone : buildJournalEntry body env = none := by
      rcases h with h | ⟨m, h, hm⟩
      · simp [buildJournalEntry, h, requiredString]
      · unfold buildJournalEntry
        rw [h]
        by_cases hme : m = ""
        · simp [requiredString, hme]
        · simp only [requiredString, hme, if_false]
          split
          · rename_i heq _ _
            simp only [Option.some.injEq] at heq
            subst heq
            simp [hm]
          · rfl
    simp [createJournal, hnone]
  · intro m t c hm hmem ht htne hc hcne hscore hdb
    have hmne : m ≠ "" := by
      rintro rfl
      exact absurd hmem (by decide)
    simp [createJournal, buildJournalEntry, hm, ht, hc, requiredString, hmne, htne, hcne,
      hmem, hscore, hdb]

theorem createJournal_mood_witness :
    ((createJournal { mood := some "angry", title := some "t", content := some "c" }
        ⟨5, 1, true⟩ []).status = 400 ∧
     (createJournal { mood := some "angry", title := some "t", content := some "c" }
        ⟨5, 1, true⟩ []).store = []) ∧
    ((createJournal { mood := some "calm", title := some "t", content := some "c" }
        ⟨5, 1, true⟩ []).status = 201 ∧
     (createJournal { mood := some "calm", title := some "t", content := some "c" }
        ⟨5, 1, true⟩ []).store = [] ++
        [{ _id := 1, date := 5, mood := "calm", title := "t", content := "c",
           tags := [], moodScore := none, createdAt := 5, updatedAt := 5 }]) :=
  ⟨(createJournal_mood { mood := some "angry", title := some "t", content := some "c" }
      ⟨5, 1, true⟩ []).1 (Or.inr ⟨"angry", rfl, by decide⟩),
   (createJournal_mood { mood := some "calm", title := some "t", content := some "c" }
      ⟨5, 1, true⟩ []).2 "calm" "t" "c" rfl (by decide) rfl (by decide) rfl (by decide)
      rfl rfl⟩

/-- An accepted create request stores a mood of the enumeration. -/
theorem buildJournalEntry_mood (body : JournalBody) (env : JournalEnv) (e : JournalEntry)
    (h : buildJournalEntry body env = some e) : e.mood ∈ moodEnum := by
  unfold buildJournalEntry at h
  split at h
  · split at h
    · rename_i hc
      simp only [Option.some.injEq] at h
      subst h
      exact hc.1
    · exact absurd h (by simp)
  · exact absurd h (by simp)

/-- Create requests keep every stored mood inside the enumeration. -/
theorem createJournal_keeps_enum (body : JournalBody) (env : JournalEnv)
    (store : List JournalEntry) (h : ∀ e ∈ store, e.mood ∈ moodEnum) :
    ∀ e ∈ (createJournal body env store).store, e.mood ∈ moodEnum := by
  unfold createJournal
  split
  · rename_i e0 hb
    split
    · intro e he
      rcases List.mem_append.mp he with he | he
      · exact h e he
      · rw [List.mem_singleton.mp he]
        exact buildJournalEntry_mood body env e0 hb
    · exact h
  · exact h

theorem mem_removeById (id : Nat) (store : List JournalEntry) (e : JournalEntry)
    (h : e ∈ removeById id store) : e ∈ store := by
  induction store with
  | nil => exact h
  | cons a as ih =>
    unfold removeById at h
    split at h
    · exact List.mem_cons_of_mem _ h
    · rcases List.mem_cons.mp h with h | h
      · rw [h]; exact List.mem_cons_self _ _
      · exact List.mem_cons_of_mem _ (ih h)

/-- Delete requests keep every stored mood inside the enumeration. -/
theorem deleteJournal_keeps_enum (id : Option Nat) (env : JournalEnv)
    (store : List JournalEntry) (h : ∀ e ∈ store, e.mood ∈ moodEnum) :
    ∀ e ∈ (deleteJournal id env store).store, e.mood ∈ moodEnum := by
  unfold deleteJournal
  split
  · exact h
  · split
    · split
      · intro e he
        exact h e (mem_removeById _ _ _ he)
      · exact h
    · exact h

/-- C6 fails on the code: after a valid entry is created, an update request
whose body carries the mood `angry`, which is outside the enumeration, is
answered with status 200 and the stored entry then has that mood; so a
reachable store holds an entry whose mood is not one of the eight values. -/
theorem updateJournal_stores_invalid_mood :
    "angry" ∉ moodEnum ∧
    (createJournal { mood := some "happy", title := some "t", content := some "c" }
      ⟨5, 1, true⟩ []).store =
      [{ _id := 1, date := 5, mood := "happy", title := "t", content := "c",
         tags := [], moodScore := none, createdAt := 5, updatedAt := 5 }] ∧
    (updateJournal (some 1) { mood := some "angry" } ⟨9, 2, true⟩
      [{ _id := 1, date := 5, mood := "happy", title := "t", content := "c",
         tags := [], moodScore := none, createdAt := 5, updatedAt := 5 }]).status = 200 ∧
    (updateJournal (some 1) { mood := some "angry" } ⟨9, 2, true⟩
      [{ _id := 1, date := 5, mood := "happy", title := "t", content := "c",
         tags := [], moodScore := none, createdAt := 5, updatedAt := 5 }]).store =
      [{ _id := 1, date := 5, mood := "angry", title := "t", content := "c",
         tags := [], moodScore := none, createdAt := 5, updatedAt := 9 }] ∧
    ¬ (∀ store, JournalReachable store → ∀ e ∈ store, e.mood ∈ moodEnum) := by
  have hcreate :
      (createJournal { mood := some "happy", title := some "t", content := some "c" }
        ⟨5, 1, true⟩ []).store =
      [{ _id := 1, date := 5, mood := "happy", title := "t", content := "c",
         tags := [], moodScore := none, createdAt := 5, updatedAt := 5 }] := by
    simp [createJournal, buildJournalEntry, requiredString, moodEnum, moodScoreValid]
  have hupdate :
      (updateJournal (some 1) { mood := some "angry" } ⟨9, 2, true⟩
        [{ _id := 1, date := 5, mood := "happy", title := "t", content := "c",
           tags := [], moodScore := none, createdAt := 5, updatedAt := 5 }]).store =
      [{ _id := 1, date := 5, mood := "angry", title := "t", content := "c",
         tags := [], moodScore := none, createdAt := 5, updatedAt := 9 }] := by
    simp [updateJournal, replaceById, applyUpdate]
  refine ⟨by decide, hcreate, ?_, hupdate, ?_⟩
  · simp [updateJournal]
  · intro hinv
    have h1 : JournalReachable
        [{ _id := 1, date := 5, mood := "happy", title := "t", content := "c",
           tags := [], moodScore := none, createdAt := 5, updatedAt := 5 }] := by
      have := JournalReachable.step
        (.create { mood := some "happy", title := some "t", content := some "c" })
        ⟨5, 1, true⟩ [] JournalReachable.empty
      simpa only [handleJournal, hcreate] using this
    have h2 : JournalReachable
        [{ _id := 1, date := 5, mood := "angry", title := "t", content := "c",
           tags := [], moodScore := none, createdAt := 5, updatedAt := 9 }] := by
      have := JournalReachable.step (.update (some 1) { mood := some "angry" })
        ⟨9, 2, true⟩ _ h1
      simpa only [handleJournal, hupdate] using this
    have := hinv _ h2 _ (List.mem_singleton.mpr rfl)
    exact absurd this (by decide)


/-! ## Mood-trend analytics: the claims -/

theorem rowKey_groupRow (avg : List ℚ → Option ℚ) (docs : List JournalEntry)
    (k : Int × String) : rowKey (groupRow avg docs k) = k := rfl

theorem moodTrends_perm (env : TrendsEnv) (store : List JournalEntry) :
    (moodTrends env store).Perm
      (((store.filter (inWindow env)).map groupKey).dedup.map
        (groupRow env.avg (store.filter (inWindow env)))) :=
  List.perm_insertionSort _ _

theorem moodTrends_keys_perm (env : TrendsEnv) (store : List JournalEntry) :
    ((moodTrends env store).map rowKey).Perm
      ((store.filter (inWindow env)).map groupKey).dedup := by
  have h := (moodTrends_perm env store).map rowKey
  simpa [List.map_map, Function.comp_def, rowKey_groupRow] using h

theorem mem_moodTrends (env : TrendsEnv) (store : List JournalEntry) (r : TrendRow) :
    r ∈ moodTrends env store ↔
      rowKey r ∈ (store.filter (inWindow env)).map groupKey ∧
      r = groupRow env.avg (store.filter (inWindow env)) (rowKey r) := by
  rw [(moodTrends_perm env store).mem_iff, List.mem_map]
  constructor
  · rintro ⟨k, hk, rfl⟩
    exact ⟨by simpa [rowKey_groupRow] using hk, by rw [rowKey_groupRow]⟩
  · rintro ⟨hk, hr⟩
    exact ⟨rowKey r, by simpa using hk, hr.symm⟩

/-- The window start written out: local time of the request, 30 days of
86 400 000 ms back on the local clock, back to UTC. -/
theorem thirtyDaysAgo_eq (zone : TimeZone) (now : Int) :
    thirtyDaysAgo zone now =
      now + zone.offsetAtUtc now - 30 * 86400000 -
        zone.offsetAtLocal (now + zone.offsetAtUtc now - 30 * 86400000) := rfl

/-- The day number of a date is the one whose 86 400 000 ms contain it. -/
theorem utcDay_spec (t : Int) :
    utcDay t * 86400000 ≤ t ∧ t < (utcDay t + 1) * 86400000 := by
  unfold utcDay dayMs
  constructor
  · exact Int.ediv_mul_le t (by norm_num)
  · exact Int.lt_ediv_add_one_mul_self t (by norm_num)

/-- A day number is determined by the 86 400 000 ms that contain the date. -/
theorem utcDay_eq_iff (t d : Int) :
    utcDay t = d ↔ d * 86400000 ≤ t ∧ t < (d + 1) * 86400000 := by
  constructor
  · rintro rfl
    exact utcDay_spec t
  · rintro ⟨h1, h2⟩
    have h := utcDay_spec t
    have hle : utcDay t ≤ d := by
      by_contra hc
      have : (d + 1) * 86400000 ≤ utcDay t * 86400000 :=
        Int.mul_le_mul_of_nonneg_right (by omega) (by norm_num)
      omega
    have hge : d ≤ utcDay t := by
      by_contra hc
      have : (utcDay t + 1) * 86400000 ≤ d * 86400000 :=
        Int.mul_le_mul_of_nonneg_right (by omega) (by norm_num)
      omega
    omega

/-- The documents of the group of a key, in terms of the store: created at or
after the window start and within the day of the key, with the mood of the
key. -/
theorem group_members (env : TrendsEnv) (store : List JournalEntry) (d : Int) (m : String) :
    (store.filter (inWindow env)).filter (fun e => groupKey e = (d, m)) =
      store.filter (fun e =>
        decide (thirtyDaysAgo env.zone env.now ≤ e.createdAt) &&
        (decide (d * 86400000 ≤ e.createdAt) && decide (e.createdAt < (d + 1) * 86400000) &&
          decide (e.mood = m))) := by
  rw [List.filter_filter]
  apply List.filter_congr
  intro e _
  have hk : decide (groupKey e = (d, m)) =
      (decide (d * 86400000 ≤ e.createdAt) && decide (e.createdAt < (d + 1) * 86400000) &&
        decide (e.mood = m)) := by
    rw [Bool.eq_iff_iff]
    simp only [groupKey, Prod.mk.injEq, utcDay_eq_iff, decide_eq_true_eq, Bool.and_eq_true]
  rw [hk, inWindow]
  exact Bool.and_comm _ _

theorem sum_group_lengths (avg : List ℚ → Option ℚ) (docs : List JournalEntry) :
    (((docs.map groupKey).dedup.map (groupRow avg docs)).map (fun r => r.count)).sum =
      docs.length := by
  have h := List.sum_map_count_dedup_eq_length (docs.map groupKey)
  rw [List.length_map] at h
  rw [List.map_map, ← h]
  congr 1
  apply List.map_congr_left
  intro k _
  simp only [Function.comp, groupRow, List.count, List.countP_eq_length_filter]
  rw [List.filter_map, List.length_map]
  rfl

/-- C7, as stated, fails: in the zone America/New_York, for a request at
1710950400000 (20 March 2024, 12:00 on the local clock), an entry created at
1708360000000 is created after 30 days before the request time
(1708358400000), yet the output has no row: the window of the code starts at
1708362000000, an hour later. -/
theorem moodTrends_window_dst :
    (1710950400000 : Int) - 30 * 86400000 ≤ 1708360000000 ∧
    thirtyDaysAgo newYork2024 1710950400000 = 1708362000000 ∧
    moodTrends ⟨1710950400000, newYork2024, doubleMean⟩
      [⟨1, 1708360000000, "happy", "t", "c", [], none, 1708360000000, 1708360000000⟩] = [] := by
  decide

/-- C7, amended: the window starts at the instant of the same local clock time
30 days of 86 400 000 ms earlier on the local clock of the process, which is
30 times 86 400 000 ms before the request time when the zone has the same UTC
offset at both instants. The mood-trends output has exactly one row per (UTC
calendar day, mood) pair occurring among the entries created at or after the
window start; the count of a row is the number of those entries with that day
and mood, so entries created before the window start contribute to no row; and
the counts add up to the number of entries created at or after the window
start. -/
theorem moodTrends_rows (env : TrendsEnv) (store : List JournalEntry) :
    thirtyDaysAgo env.zone env.now =
      env.now + env.zone.offsetAtUtc env.now - 30 * 86400000 -
        env.zone.offsetAtLocal (env.now + env.zone.offsetAtUtc env.now - 30 * 86400000) ∧
    (env.zone.offsetAtLocal (env.now + env.zone.offsetAtUtc env.now - 30 * 86400000) =
        env.zone.offsetAtUtc env.now →
      thirtyDaysAgo env.zone env.now = env.now - 30 * 86400000) ∧
    ((moodTrends env store).map (fun r => (r.date, r.mood))).Nodup ∧
    (∀ (d : Int) (m : String),
      (d, m) ∈ (moodTrends env store).map (fun r => (r.date, r.mood)) ↔
      ∃ e ∈ store, thirtyDaysAgo env.zone env.now ≤ e.createdAt ∧
        d * 86400000 ≤ e.createdAt ∧ e.createdAt < (d + 1) * 86400000 ∧ e.mood = m) ∧
    (∀ r ∈ moodTrends env store, r.count =
      (store.filter (fun e =>
        decide (thirtyDaysAgo env.zone env.now ≤ e.createdAt) &&
        (decide (r.date * 86400000 ≤ e.createdAt) &&
          decide (e.createdAt < (r.date + 1) * 86400000) &&
          decide (e.mood = r.mood)))).length) ∧
    ((moodTrends env store).map (fun r => r.count)).sum =
      (store.filter (fun e => decide (thirtyDaysAgo env.zone env.now ≤ e.createdAt))).length := by
  refine ⟨thirtyDaysAgo_eq _ _, ?_, ?_, ?_, ?_, ?_⟩
  · intro h
    rw [thirtyDaysAgo_eq, h]
    ring
  · exact (moodTrends_keys_perm env store).nodup_iff.mpr (List.nodup_dedup _)
  · intro d m
    have hp : (d, m) ∈ (moodTrends env store).map (fun r => (r.date, r.mood)) ↔
        (d, m) ∈ ((store.filter (inWindow env)).map groupKey).dedup :=
      (moodTrends_keys_perm env store).mem_iff
    rw [hp, List.mem_dedup, List.mem_map]
    constructor
    · rintro ⟨e, he, hk⟩
      rw [List.mem_filter] at he
      simp only [groupKey, Prod.mk.injEq, utcDay_eq_iff] at hk
      exact ⟨e, he.1, by simpa [inWindow] using he.2, hk.1.1, hk.1.2, hk.2⟩
    · rintro ⟨e, he, hw, h1, h2, hm⟩
      refine ⟨e, List.mem_filter.mpr ⟨he, by simpa [inWindow] using hw⟩, ?_⟩
      simp only [groupKey, Prod.mk.injEq, utcDay_eq_iff]
      exact ⟨⟨h1, h2⟩, hm⟩
  · intro r hr
    have h := ((mem_moodTrends env store r).mp hr).2
    have hc : r.count = (groupRow env.avg (store.filter (inWindow env)) (rowKey r)).count := by
      rw [← h]
    rw [hc]
    simp only [groupRow, rowKey]
    rw [group_members]
  · have h := ((moodTrends_perm env store).map (fun r => r.count)).sum_eq
    rw [h, sum_group_lengths]
    rfl

/-- The floor of the binary logarithm of a rational bracketed by two
consecutive powers of two. -/
theorem log2_eq (x : ℚ) (e : ℤ) (h1 : (2 : ℚ) ^ e ≤ x) (h2 : x < (2 : ℚ) ^ (e + 1)) :
    Int.log 2 x = e := by
  have hx : 0 < x := lt_of_lt_of_le (by positivity) h1
  apply le_antisymm
  · have := (Int.lt_zpow_iff_log_lt (b := 2) (by norm_num) hx).mp (by exact_mod_cast h2)
    omega
  · exact (Int.zpow_le_iff_le_log (b := 2) (by norm_num) hx).mp (by exact_mod_cast h1)

theorem nearestDouble_five : nearestDouble 5 = some 5 := by
  have hl : Int.log 2 |(5 : ℚ)| = 2 := by
    rw [abs_of_pos (by norm_num)]
    exact log2_eq 5 2 (by norm_num) (by norm_num)
  have hu : doubleUlp 5 = 1 / 2 ^ 50 := by
    unfold doubleUlp
    rw [hl]
    norm_num
  have hr : roundHalfEven (5 / doubleUlp 5) = 5 * 2 ^ 50 := by
    rw [hu]
    have : (5 / (1 / 2 ^ 50) : ℚ) = ((5 * 2 ^ 50 : ℤ) : ℚ) := by norm_num
    rw [this]
    unfold roundHalfEven
    simp
  unfold nearestDouble
  rw [hr, hu]
  norm_num

theorem nearestDouble_five_thirds :
    nearestDouble (5 / 3) = some (7505999378950827 / 4503599627370496) := by
  have hl : Int.log 2 |(5 / 3 : ℚ)| = 0 := by
    rw [abs_of_pos (by norm_num)]
    exact log2_eq (5 / 3) 0 (by norm_num) (by norm_num)
  have hu : doubleUlp (5 / 3) = 1 / 2 ^ 52 := by
    unfold doubleUlp
    rw [hl]
    norm_num
  have hf : ⌊(5 / 3 / (1 / 2 ^ 52) : ℚ)⌋ = 7505999378950826 := by
    rw [Int.floor_eq_iff]
    constructor <;> norm_num
  have hr : roundHalfEven (5 / 3 / doubleUlp (5 / 3)) = 7505999378950827 := by
    rw [hu]
    unfold roundHalfEven
    rw [hf]
    norm_num
  unfold nearestDouble
  rw [hr, hu]
  have hv : ((7505999378950827 : ℤ) : ℚ) * (1 / 2 ^ 52) =
      7505999378950827 / 4503599627370496 := by norm_num
  rw [hv, abs_of_pos (by norm_num), if_pos (by norm_num)]

/-- The mean of 1, 2 and 2 in double arithmetic is the double nearest to 5/3,
which prints as 1.6666666666666667. -/
theorem doubleMean_one_two_two :
    doubleMean [1, 2, 2] = some (7505999378950827 / 4503599627370496) := by
  have hs : ([1, 2, 2] : List ℚ).sum = 5 := by norm_num
  have hlen : ((([1, 2, 2] : List ℚ).length : ℕ) : ℚ) = 3 := by norm_num
  unfold doubleMean
  rw [hs, nearestDouble_five, Option.some_bind, hlen, nearestDouble_five_thirds]

/-- C8, as stated, fails: for three entries of one day and mood with the scores
1, 2 and 2, the row has count 3 and avgScore the double nearest to 5/3, which
is not the arithmetic mean 5/3. -/
theorem moodTrends_avgScore_rounded :
    (moodTrends ⟨100 * dayMs + 5, utcZone, doubleMean⟩
      [ ⟨1, 0, "happy", "a", "b", [], some 1, 100 * dayMs, 0⟩,
        ⟨2, 0, "happy", "a", "b", [], some 2, 100 * dayMs + 1, 0⟩,
        ⟨3, 0, "happy", "a", "b", [], some 2, 100 * dayMs + 2, 0⟩ ]).map
        (fun r => (r.count, r.avgScore)) =
      [(3, some (7505999378950827 / 4503599627370496))] ∧
    (7505999378950827 / 4503599627370496 : ℚ) ≠ (1 + 2 + 2) / 3 := by
  constructor
  · have h : moodTrends ⟨100 * dayMs + 5, utcZone, doubleMean⟩
        [ ⟨1, 0, "happy", "a", "b", [], some 1, 100 * dayMs, 0⟩,
          ⟨2, 0, "happy", "a", "b", [], some 2, 100 * dayMs + 1, 0⟩,
          ⟨3, 0, "happy", "a", "b", [], some 2, 100 * dayMs + 2, 0⟩ ] =
        [⟨100, "happy", 3, doubleMean [1, 2, 2]⟩] := by
      rfl
    rw [h, doubleMean_one_two_two]
    rfl
  · norm_num

/-- C8, amended: in every row of the mood-trends output, avgScore is what the
accumulator `$avg` of the store computes, in double arithmetic, from the
moodScore values of the entries of the row's group that have one (the entries
created at or after the window start, within the row's UTC day, with the row's
mood), entries without one being ignored; it is the arithmetic mean whenever
that computation is exact; it is null when no entry of the group has a
moodScore; and the rows are in ascending order of date. -/
theorem moodTrends_avgScore (env : TrendsEnv) (store : List JournalEntry) :
    thirtyDaysAgo env.zone env.now =
      env.now + env.zone.offsetAtUtc env.now - 30 * 86400000 -
        env.zone.offsetAtLocal (env.now + env.zone.offsetAtUtc env.now - 30 * 86400000) ∧
    (∀ r ∈ moodTrends env store, ∀ scores : List ℚ,
      scores = (store.filter (fun e =>
        decide (thirtyDaysAgo env.zone env.now ≤ e.createdAt) &&
        (decide (r.date * 86400000 ≤ e.createdAt) &&
          decide (e.createdAt < (r.date + 1) * 86400000) &&
          decide (e.mood = r.mood)))).filterMap (fun e => e.moodScore) →
      (scores = [] → r.avgScore = none) ∧
      (scores ≠ [] → r.avgScore = env.avg scores) ∧
      (scores ≠ [] → env.avg scores = some (scores.sum / scores.length) →
        r.avgScore = some (scores.sum / scores.length))) ∧
    ((moodTrends env store).map (fun r => r.date)).Sorted (· ≤ ·) := by
  refine ⟨thirtyDaysAgo_eq _ _, ?_, ?_⟩
  · intro r hr scores hscores
    have h := ((mem_moodTrends env store r).mp hr).2
    have ha : r.avgScore =
        (groupRow env.avg (store.filter (inWindow env)) (rowKey r)).avgScore := by
      rw [← h]
    have hg : (groupRow env.avg (store.filter (inWindow env)) (rowKey r)).avgScore =
        average env.avg scores := by
      simp only [groupRow, rowKey]
      rw [group_members, hscores]
    rw [ha, hg]
    refine ⟨?_, ?_, ?_⟩
    · intro hnil
      rw [hnil]
      rfl
    · intro hne
      cases scores with
      | nil => exact absurd rfl hne
      | cons x xs => rfl
    · intro hne hexact
      cases scores with
      | nil => exact absurd rfl hne
      | cons x xs => exact hexact
  · have hs : (moodTrends env store).Sorted dateLe := List.sorted_insertionSort _ _
    exact List.pairwise_map.mpr hs

/-- The mood-trends output, in UTC, for two happy entries of today with scores
4 and 7, one sad entry of yesterday without a score and one happy entry
created forty days before: date, mood, count and whether avgScore is a
number. -/
theorem moodTrends_example :
    (moodTrends ⟨100 * dayMs + 5, utcZone, doubleMean⟩
      [ ⟨1, 0, "happy", "a", "b", [], some 4, 100 * dayMs, 0⟩,
        ⟨2, 0, "sad", "a", "b", [], none, 99 * dayMs + 1, 0⟩,
        ⟨3, 0, "happy", "a", "b", [], none, 60 * dayMs, 0⟩,
        ⟨4, 0, "happy", "a", "b", [], some 7, 100 * dayMs + 2, 0⟩ ]).map
        (fun r => (r.date, r.mood, r.count)) =
      [ (99, "sad", 1), (100, "happy", 2) ] := by
  decide

/-! ## Chat history: the claim -/

/-- The records the history leaves out, and their relation to the returned
ones. -/
theorem chatHistory_rest (store : List ChatMessage) :
    ((chatHistory store ++ (store.insertionSort newerFirst).drop 50).Perm store) ∧
    ∀ m ∈ (store.insertionSort newerFirst).drop 50, ∀ r ∈ chatHistory store,
      m.timestamp ≤ r.timestamp := by
  have hsorted : (store.insertionSort newerFirst).Sorted newerFirst :=
    List.sorted_insertionSort _ _
  constructor
  · simp only [chatHistory, List.take_append_drop]
    exact List.perm_insertionSort _ _
  · intro m hm r hr
    have hp : (List.take 50 (store.insertionSort newerFirst) ++
        List.drop 50 (store.insertionSort newerFirst)).Pairwise newerFirst := by
      rw [List.take_append_drop]
      exact hsorted
    exact (List.pairwise_append.mp hp).2.2 r hr m hm

/-- C9: chat history retrieval returns at most 50 records, as many as the
smaller of 50 and the size of the store, in order of non-increasing
timestamp; the records it leaves out complete it to the whole
store and each has a timestamp no later than every returned one, so every
stored message that is not returned is no later than each returned one; and a
store of 50 or fewer messages is returned whole. -/
theorem chatHistory_most_recent (store : List ChatMessage) :
    (chatHistory store).length ≤ 50 ∧
    (chatHistory store).length = min 50 store.length ∧
    ((chatHistory store).map (fun m => m.timestamp)).Sorted (· ≥ ·) ∧
    (∃ rest : List ChatMessage, (chatHistory store ++ rest).Perm store ∧
      ∀ m ∈ rest, ∀ r ∈ chatHistory store, m.timestamp ≤ r.timestamp) ∧
    (∀ m ∈ store, m ∉ chatHistory store →
      ∀ r ∈ chatHistory store, m.timestamp ≤ r.timestamp) ∧
    (store.length ≤ 50 → (chatHistory store).Perm store) := by
  have hsorted : (store.insertionSort newerFirst).Sorted newerFirst :=
    List.sorted_insertionSort _ _
  have hperm : (store.insertionSort newerFirst).Perm store := List.perm_insertionSort _ _
  refine ⟨?_, ?_, ?_, ⟨_, chatHistory_rest store⟩, ?_, ?_⟩
  · simp only [chatHistory, List.length_take]
    exact Nat.min_le_left _ _
  · simp only [chatHistory, List.length_take, hperm.length_eq]
  · have h : (chatHistory store).Sorted newerFirst :=
      hsorted.sublist (List.take_sublist _ _)
    exact List.pairwise_map.mpr h
  · intro m hm hnot r hr
    have hmem : m ∈ chatHistory store ++ (store.insertionSort newerFirst).drop 50 :=
      (chatHistory_rest store).1.mem_iff.mpr hm
    rcases List.mem_append.mp hmem with h | h
    · exact absurd h hnot
    · exact (chatHistory_rest store).2 m h r hr
  · intro hlen
    have hl : (store.insertionSort newerFirst).length ≤ 50 := by
      rw [hperm.length_eq]
      exact hlen
    simp only [chatHistory, List.take_of_length_le hl]
    exact hperm

/-- The chat history of a store of three messages. -/
theorem chatHistory_example :
    chatHistory [⟨1, "a", "x", 10⟩, ⟨2, "b", "y", 30⟩, ⟨3, "c", "z", 20⟩] =
      [⟨2, "b", "y", 30⟩, ⟨3, "c", "z", 20⟩, ⟨1, "a", "x", 10⟩] := by
  decide

/-! ## Assessment intake: the claim -/

/-- C10 fails on the code: for the body with name `Ann`, email `ann@example.com`
and score 7, accepted by the store, the endpoint answers 201 with the
acknowledgment `Entry saved` and the new record holds the name and the email,
but it has no `score` field: the schema declares no such path. -/
theorem createAssessment_drops_score :
    (createAssessment ⟨some "Ann", some "ann@example.com", some 7⟩ ⟨5, 1, true⟩ []).response.status
      = 201 ∧
    (createAssessment ⟨some "Ann", some "ann@example.com", some 7⟩ ⟨5, 1, true⟩ []).response.body
      = .obj [("message", .str "Entry saved")] ∧
    (createAssessment ⟨some "Ann", some "ann@example.com", some 7⟩ ⟨5, 1, true⟩ []).store.map
      (fieldString "name") = [some "Ann"] ∧
    (createAssessment ⟨some "Ann", some "ann@example.com", some 7⟩ ⟨5, 1, true⟩ []).store.map
      (fieldString "email") = [some "ann@example.com"] ∧
    (createAssessment ⟨some "Ann", some "ann@example.com", some 7⟩ ⟨5, 1, true⟩ []).store.map
      (hasField "score") = [false] ∧
    (createAssessment ⟨some "Ann", some "ann@example.com", some 7⟩ ⟨5, 1, true⟩ []).store.map
      (fieldNumber "score") ≠ [some 7] := by
  refine ⟨rfl, rfl, ?_, ?_, ?_, ?_⟩ <;>
    simp [createAssessment, newMoodEntry, assessmentFields, moodEntryPaths, fieldString,
      hasField, fieldNumber, List.lookup]


end MindMatters
